import Mathlib

/-!
Verification of the core configuration repository of the bluemix CLI SDK
(`bluemix/configuration/core_config/bx_config.go`), as a shallow embedding.

Modelling decisions:
* Go JSON values (`interface{}` after `json.Unmarshal`, and the values of the
  untyped `raw` map) are represented by the inductive `JVal`; a JSON object is
  an association list `List (String × JVal)` in document order, looked up with
  `List.lookup` (first binding wins, as a Go map has unique keys).
* The repository's methods are modelled as pure functions on an explicit
  repository state `bxConfigRepository`.  Getters return a pair
  (value, updated state) because reading triggers the one-time lazy load.
* The persistor is modelled by the data its `Load` would install, the error it
  would report, and the error its `Save` would return; the repository state
  carries a counter of `Load` invocations and a log of everything handed to
  `Save`, so that persistence-path claims are statable.
* String case folding (`strings.EqualFold`, `strings.ToLower`) is modelled at
  the ASCII level via Lean's `String.toLower`; the two Go functions coincide
  there, which is the level at which the specification speaks.
-/

/-- ASCII lower-casing of one character (the level at which Go's
`strings.ToLower` and the specification's "case-insensitive" agree). -/
def lowerChar (c : Char) : Char :=
  if 'A' ≤ c ∧ c ≤ 'Z' then Char.ofNat (c.toNat + 32) else c

/-- Go `strings.ToLower`, modelled at the ASCII level. -/
def goToLower (s : String) : String :=
  ⟨s.data.map lowerChar⟩

def goSplitAux (sep : Char) : List Char → List Char → List String
  | [], acc => [⟨acc.reverse⟩]
  | c :: cs, acc =>
      if c = sep then ⟨acc.reverse⟩ :: goSplitAux sep cs []
      else goSplitAux sep cs (c :: acc)

/-- Go `strings.Split` with a single-character separator:
`goSplit "" sep = [""]`, and in general one field per separator occurrence. -/
def goSplit (s : String) (sep : Char) : List String :=
  goSplitAux sep s.data []

/-- Go `strings.HasPrefix`. -/
def goStartsWith (s pre : String) : Bool :=
  pre.data.isPrefixOf s.data

/-- JSON values / Go `interface\x7b\x7d` values produced by `json.Unmarshal`. -/
inductive JVal where
  | jnull : JVal
  | jbool : Bool → JVal
  | jint : Int → JVal
  | jstr : String → JVal
  | jarr : List JVal → JVal
  | jobj : List (String × JVal) → JVal

namespace models

/-- Modelled from the spec: `models.Account` is an "opaque structured value
with at least a GUID" (the `models` package is not under `src/`). -/
structure Account where
  GUID : String
deriving Repr, DecidableEq

/-- Modelled from the spec: `models.ResourceGroup` is an "opaque structured
value with GUID + name". -/
structure ResourceGroup where
  GUID : String
  Name : String
deriving Repr, DecidableEq

/-- Modelled from the spec: a plugin-repository registration has a name and a
URL. -/
structure PluginRepo where
  Name : String
  URL : String
deriving Repr, DecidableEq

/-- Modelled from the spec: a region has an id, a display name and a type
("three strings forming one logical region entity"). -/
structure Region where
  ID : String
  Name : String
  Type' : String
deriving Repr, DecidableEq

end models

/-- The typed document `BXConfigData` of `bx_config.go`, with its unexported
`raw` companion map (`type raw map[string]interface\x7b\x7d`). -/
structure BXConfigData where
  ConsoleEndpoint : String
  Region : String
  RegionID : String
  RegionType : String
  IAMEndpoint : String
  IAMID : String
  IAMToken : String
  IAMRefreshToken : String
  Account : models.Account
  ResourceGroup : models.ResourceGroup
  PluginRepos : List models.PluginRepo
  Locale : String
  Trace : String
  ColorEnabled : String
  HTTPTimeout : Int
  CLIInfoEndpoint : String
  CheckCLIVersionDisabled : Bool
  UsageStatsDisabled : Bool
  raw : List (String × JVal)

/-- `NewBXConfigData`: a zero-valued document with an empty raw map. -/
def NewBXConfigData : BXConfigData :=
  { ConsoleEndpoint := ""
    Region := ""
    RegionID := ""
    RegionType := ""
    IAMEndpoint := ""
    IAMID := ""
    IAMToken := ""
    IAMRefreshToken := ""
    Account := { GUID := "" }
    ResourceGroup := { GUID := "", Name := "" }
    PluginRepos := []
    Locale := ""
    Trace := ""
    ColorEnabled := ""
    HTTPTimeout := 0
    CLIInfoEndpoint := ""
    CheckCLIVersionDisabled := false
    UsageStatsDisabled := false
    raw := [] }

def encodeAccount (a : models.Account) : JVal :=
  .jobj [("GUID", .jstr a.GUID)]

def encodeResourceGroup (g : models.ResourceGroup) : JVal :=
  .jobj [("GUID", .jstr g.GUID), ("Name", .jstr g.Name)]

def encodePluginRepo (p : models.PluginRepo) : JVal :=
  .jobj [("Name", .jstr p.Name), ("URL", .jstr p.URL)]

/-- The exported fields of `BXConfigData`, in declaration order, with their
values rendered as `JVal`.  This is at once what `json.Marshal` serializes
(the unexported `raw` field is skipped) and what `structs.Map` produces as the
untyped view of the struct. -/
def BXConfigData.fields (d : BXConfigData) : List (String × JVal) :=
  [("ConsoleEndpoint", .jstr d.ConsoleEndpoint),
   ("Region", .jstr d.Region),
   ("RegionID", .jstr d.RegionID),
   ("RegionType", .jstr d.RegionType),
   ("IAMEndpoint", .jstr d.IAMEndpoint),
   ("IAMID", .jstr d.IAMID),
   ("IAMToken", .jstr d.IAMToken),
   ("IAMRefreshToken", .jstr d.IAMRefreshToken),
   ("Account", encodeAccount d.Account),
   ("ResourceGroup", encodeResourceGroup d.ResourceGroup),
   ("PluginRepos", .jarr (d.PluginRepos.map encodePluginRepo)),
   ("Locale", .jstr d.Locale),
   ("Trace", .jstr d.Trace),
   ("ColorEnabled", .jstr d.ColorEnabled),
   ("HTTPTimeout", .jint d.HTTPTimeout),
   ("CLIInfoEndpoint", .jstr d.CLIInfoEndpoint),
   ("CheckCLIVersionDisabled", .jbool d.CheckCLIVersionDisabled),
   ("UsageStatsDisabled", .jbool d.UsageStatsDisabled)]

/-- The keys of the typed schema (the exported field names of
`BXConfigData`). -/
def typedFieldNames : List String :=
  ["ConsoleEndpoint", "Region", "RegionID", "RegionType", "IAMEndpoint",
   "IAMID", "IAMToken", "IAMRefreshToken", "Account", "ResourceGroup",
   "PluginRepos", "Locale", "Trace", "ColorEnabled", "HTTPTimeout",
   "CLIInfoEndpoint", "CheckCLIVersionDisabled", "UsageStatsDisabled"]

/-- `BXConfigData.Marshal`: `json.MarshalIndent(data)` serializes the exported
fields in declaration order (indentation is irrelevant to the value). -/
def BXConfigData.encode (d : BXConfigData) : JVal :=
  .jobj d.fields

/-- `structs.Map(c.data)`: the untyped map of the struct's exported fields
(the unexported `raw` field is not included). -/
def structsMap (d : BXConfigData) : List (String × JVal) :=
  d.fields

/-- Go `encoding/json` field matching: an incoming object key binds to a
struct field by exact name match, or failing that by case-insensitive match. -/
def jsonLookup (fields : List (String × JVal)) (name : String) : Option JVal :=
  match fields.find? (fun p => p.1 == name) with
  | some p => some p.2
  | none => (fields.find? (fun p => goToLower p.1 == goToLower name)).map (·.2)

/-- A JSON value is acceptable for a string field when the key is absent,
null, or a string; anything else is a `json` type error. -/
def strFieldOk : Option JVal → Bool
  | none => true
  | some .jnull => true
  | some (.jstr _) => true
  | some _ => false

/-- The string a string field receives: the value when present, the zero
value when absent or null. -/
def getStrField : Option JVal → String
  | some (.jstr s) => s
  | _ => ""

def intFieldOk : Option JVal → Bool
  | none => true
  | some .jnull => true
  | some (.jint _) => true
  | some _ => false

def getIntField : Option JVal → Int
  | some (.jint n) => n
  | _ => 0

def boolFieldOk : Option JVal → Bool
  | none => true
  | some .jnull => true
  | some (.jbool _) => true
  | some _ => false

def getBoolField : Option JVal → Bool
  | some (.jbool b) => b
  | _ => false

def accountFieldOk : Option JVal → Bool
  | none => true
  | some .jnull => true
  | some (.jobj fields) => strFieldOk (jsonLookup fields "GUID")
  | some _ => false

def getAccountField : Option JVal → models.Account
  | some (.jobj fields) => { GUID := getStrField (jsonLookup fields "GUID") }
  | _ => { GUID := "" }

def resourceGroupFieldOk : Option JVal → Bool
  | none => true
  | some .jnull => true
  | some (.jobj fields) =>
      strFieldOk (jsonLookup fields "GUID") && strFieldOk (jsonLookup fields "Name")
  | some _ => false

def getResourceGroupField : Option JVal → models.ResourceGroup
  | some (.jobj fields) =>
      { GUID := getStrField (jsonLookup fields "GUID")
        Name := getStrField (jsonLookup fields "Name") }
  | _ => { GUID := "", Name := "" }

def pluginRepoOk : JVal → Bool
  | .jobj fields =>
      strFieldOk (jsonLookup fields "Name") && strFieldOk (jsonLookup fields "URL")
  | .jnull => true
  | _ => false

def getPluginRepo : JVal → models.PluginRepo
  | .jobj fields =>
      { Name := getStrField (jsonLookup fields "Name")
        URL := getStrField (jsonLookup fields "URL") }
  | _ => { Name := "", URL := "" }

def pluginReposFieldOk : Option JVal → Bool
  | none => true
  | some .jnull => true
  | some (.jarr vs) => vs.all pluginRepoOk
  | some _ => false

def getPluginReposField : Option JVal → List models.PluginRepo
  | some (.jarr vs) => vs.map getPluginRepo
  | _ => []

/-- `json.Unmarshal` succeeds on an object iff every key binding to a typed
field carries a value of the field's type. -/
def decodeOk (obj : List (String × JVal)) : Bool :=
  strFieldOk (jsonLookup obj "ConsoleEndpoint") &&
  strFieldOk (jsonLookup obj "Region") &&
  strFieldOk (jsonLookup obj "RegionID") &&
  strFieldOk (jsonLookup obj "RegionType") &&
  strFieldOk (jsonLookup obj "IAMEndpoint") &&
  strFieldOk (jsonLookup obj "IAMID") &&
  strFieldOk (jsonLookup obj "IAMToken") &&
  strFieldOk (jsonLookup obj "IAMRefreshToken") &&
  accountFieldOk (jsonLookup obj "Account") &&
  resourceGroupFieldOk (jsonLookup obj "ResourceGroup") &&
  pluginReposFieldOk (jsonLookup obj "PluginRepos") &&
  strFieldOk (jsonLookup obj "Locale") &&
  strFieldOk (jsonLookup obj "Trace") &&
  strFieldOk (jsonLookup obj "ColorEnabled") &&
  intFieldOk (jsonLookup obj "HTTPTimeout") &&
  strFieldOk (jsonLookup obj "CLIInfoEndpoint") &&
  boolFieldOk (jsonLookup obj "CheckCLIVersionDisabled") &&
  boolFieldOk (jsonLookup obj "UsageStatsDisabled")

/-- `BXConfigData.Unmarshal`: decode the bytes into the typed fields (into a
fresh zero document, as `Load` does), then decode the same bytes again into
the untyped `raw` map, which receives the whole object verbatim.  Decoding
fails on non-object input or on a type error at any typed field. -/
def BXConfigData.decode (j : JVal) : Option BXConfigData :=
  match j with
  | .jobj obj =>
      if decodeOk obj then
        some { ConsoleEndpoint := getStrField (jsonLookup obj "ConsoleEndpoint")
               Region := getStrField (jsonLookup obj "Region")
               RegionID := getStrField (jsonLookup obj "RegionID")
               RegionType := getStrField (jsonLookup obj "RegionType")
               IAMEndpoint := getStrField (jsonLookup obj "IAMEndpoint")
               IAMID := getStrField (jsonLookup obj "IAMID")
               IAMToken := getStrField (jsonLookup obj "IAMToken")
               IAMRefreshToken := getStrField (jsonLookup obj "IAMRefreshToken")
               Account := getAccountField (jsonLookup obj "Account")
               ResourceGroup := getResourceGroupField (jsonLookup obj "ResourceGroup")
               PluginRepos := getPluginReposField (jsonLookup obj "PluginRepos")
               Locale := getStrField (jsonLookup obj "Locale")
               Trace := getStrField (jsonLookup obj "Trace")
               ColorEnabled := getStrField (jsonLookup obj "ColorEnabled")
               HTTPTimeout := getIntField (jsonLookup obj "HTTPTimeout")
               CLIInfoEndpoint := getStrField (jsonLookup obj "CLIInfoEndpoint")
               CheckCLIVersionDisabled := getBoolField (jsonLookup obj "CheckCLIVersionDisabled")
               UsageStatsDisabled := getBoolField (jsonLookup obj "UsageStatsDisabled")
               raw := obj }
      else none
  | _ => none

/-- Go map assignment `r[k] = v` on the raw map: replace the binding of `k`
if present, otherwise add it. -/
def rawSet : List (String × JVal) → String → JVal → List (String × JVal)
  | [], k, v => [(k, v)]
  | (k', v') :: rest, k, v =>
    if k' = k then (k, v) :: rest else (k', v') :: rawSet rest k v

/-- What a call to `Persistor.Save` received: the full typed document
(`Save(c.data)`) or only the raw map (`Save(c.data.raw)`). -/
inductive SavedVal where
  | doc : BXConfigData → SavedVal
  | rawMap : List (String × JVal) → SavedVal

/-- The persistor collaborator, modelled by its observable behaviour: the
document its `Load` installs on success, the error `Load` reports on failure,
and the error `Save` returns (if any). -/
structure Persistor where
  loadErr : Option String
  loadData : BXConfigData
  saveErr : Option String

/-- The `bxConfigRepository` state: the owned document, the one-time
initialization gate (`sync.Once`), the persistor, plus instrumentation that
makes the persistence path observable — how often `Load` ran, everything
given to `Save`, and every error handed to the `onError` handler. -/
structure bxConfigRepository where
  data : BXConfigData
  initDone : Bool
  persistor : Persistor
  loadCount : Nat
  savedLog : List SavedVal
  handled : List String

/-- `createBluemixConfigFromPersistor`: fresh repository around a zero
document, with the init gate still open. -/
def createBluemixConfigFromPersistor (p : Persistor) : bxConfigRepository :=
  { data := NewBXConfigData
    initDone := false
    persistor := p
    loadCount := 0
    savedLog := []
    handled := [] }

namespace bxConfigRepository

/-- `init`: `initOnce.Do` — at most once, run `persistor.Load(c.data)` and
hand a load error to `onError`; the gate closes whether or not the load
succeeded, and a failure leaves the document as it was. -/
def init (c : bxConfigRepository) : bxConfigRepository :=
  if c.initDone then c
  else
    match c.persistor.loadErr with
    | some e =>
        { c with initDone := true, loadCount := c.loadCount + 1,
                 handled := c.handled ++ [e] }
    | none =>
        { c with initDone := true, loadCount := c.loadCount + 1,
                 data := c.persistor.loadData }

/-- `read`: lazily initialize, then evaluate the callback on the document.
Returns the value together with the (possibly just-initialized) state. -/
def read (c : bxConfigRepository) (f : BXConfigData → α) : α × bxConfigRepository :=
  let c := init c
  (f c.data, c)

/-- `write`: lazily initialize, apply the mutation, regenerate the raw map by
`structs.Map`, save the full document, and hand a save error to `onError`
(no rollback). -/
def write (c : bxConfigRepository) (f : BXConfigData → BXConfigData) : bxConfigRepository :=
  let c := init c
  let d := f c.data
  let d := { d with raw := structsMap d }
  let c := { c with data := d, savedLog := c.savedLog ++ [SavedVal.doc d] }
  match c.persistor.saveErr with
  | some e => { c with handled := c.handled ++ [e] }
  | none => c

/-- `writeRaw`: lazily initialize, apply the mutation, save only the raw map
(the raw map is NOT regenerated), and hand a save error to `onError`. -/
def writeRaw (c : bxConfigRepository) (f : BXConfigData → BXConfigData) : bxConfigRepository :=
  let c := init c
  let d := f c.data
  let c := { c with data := d, savedLog := c.savedLog ++ [SavedVal.rawMap d.raw] }
  match c.persistor.saveErr with
  | some e => { c with handled := c.handled ++ [e] }
  | none => c

def ConsoleEndpoint (c : bxConfigRepository) : String × bxConfigRepository :=
  read c fun d => d.ConsoleEndpoint

def Region (c : bxConfigRepository) : models.Region × bxConfigRepository :=
  read c fun d => { ID := d.RegionID, Name := d.Region, Type' := d.RegionType }

/-- `CloudName`: classify `Region().ID` as `customer:deployment:locationcode`. -/
def CloudName (c : bxConfigRepository) : String × bxConfigRepository :=
  let p := Region c
  let regionID := p.1.ID
  let name :=
    if regionID = "" then ""
    else
      match goSplit regionID ':' with
      | [customer, deployment, _] =>
          if customer ≠ "ibm" then customer
          else if deployment = "yp" then "bluemix"
          else if goStartsWith deployment "ys" then "staging"
          else ""
      | _ => ""
  (name, p.2)

def CloudType (c : bxConfigRepository) : String × bxConfigRepository :=
  let p := Region c
  (p.1.Type', p.2)

def IAMEndpoint (c : bxConfigRepository) : String × bxConfigRepository :=
  read c fun d => d.IAMEndpoint

def IAMToken (c : bxConfigRepository) : String × bxConfigRepository :=
  read c fun d => d.IAMToken

def IAMRefreshToken (c : bxConfigRepository) : String × bxConfigRepository :=
  read c fun d => d.IAMRefreshToken

def Account (c : bxConfigRepository) : models.Account × bxConfigRepository :=
  read c fun d => d.Account

def HasAccount (c : bxConfigRepository) : Bool × bxConfigRepository :=
  let p := Account c
  (p.1.GUID ≠ "", p.2)

def ResourceGroup (c : bxConfigRepository) : models.ResourceGroup × bxConfigRepository :=
  read c fun d => d.ResourceGroup

def HasResourceGroup (c : bxConfigRepository) : Bool × bxConfigRepository :=
  read c fun d => d.ResourceGroup.GUID ≠ "" && d.ResourceGroup.Name ≠ ""

def PluginRepos (c : bxConfigRepository) : List models.PluginRepo × bxConfigRepository :=
  read c fun d => d.PluginRepos

/-- The search loop of `PluginRepo`: first entry whose name matches
case-insensitively (`strings.EqualFold`, modelled at ASCII level). -/
def pluginRepoFind : List models.PluginRepo → String → models.PluginRepo × Bool
  | [], _ => ({ Name := "", URL := "" }, false)
  | r :: rest, name =>
      if goToLower r.Name == goToLower name then (r, true) else pluginRepoFind rest name

def PluginRepo (c : bxConfigRepository) (name : String) :
    (models.PluginRepo × Bool) × bxConfigRepository :=
  let p := PluginRepos c
  (pluginRepoFind p.1 name, p.2)

def Locale (c : bxConfigRepository) : String × bxConfigRepository :=
  read c fun d => d.Locale

def Trace (c : bxConfigRepository) : String × bxConfigRepository :=
  read c fun d => d.Trace

def ColorEnabled (c : bxConfigRepository) : String × bxConfigRepository :=
  read c fun d => d.ColorEnabled

def HTTPTimeout (c : bxConfigRepository) : Int × bxConfigRepository :=
  read c fun d => d.HTTPTimeout

def CLIInfoEndpoint (c : bxConfigRepository) : String × bxConfigRepository :=
  read c fun d => d.CLIInfoEndpoint

def CheckCLIVersionDisabled (c : bxConfigRepository) : Bool × bxConfigRepository :=
  read c fun d => d.CheckCLIVersionDisabled

def UsageStatsDisabled (c : bxConfigRepository) : Bool × bxConfigRepository :=
  read c fun d => d.UsageStatsDisabled

def SetConsoleEndpoint (c : bxConfigRepository) (endpoint : String) : bxConfigRepository :=
  write c fun d => { d with ConsoleEndpoint := endpoint }

def SetRegion (c : bxConfigRepository) (region : models.Region) : bxConfigRepository :=
  write c fun d =>
    { d with Region := region.Name, RegionID := region.ID, RegionType := region.Type' }

def SetIAMEndpoint (c : bxConfigRepository) (endpoint : String) : bxConfigRepository :=
  write c fun d => { d with IAMEndpoint := endpoint }

def SetIAMToken (c : bxConfigRepository) (token : String) : bxConfigRepository :=
  writeRaw c fun d =>
    { d with IAMToken := token, raw := rawSet d.raw "IAMToken" (.jstr token) }

def SetIAMRefreshToken (c : bxConfigRepository) (token : String) : bxConfigRepository :=
  writeRaw c fun d =>
    { d with IAMRefreshToken := token,
             raw := rawSet d.raw "IAMRefreshToken" (.jstr token) }

def SetAccount (c : bxConfigRepository) (account : models.Account) : bxConfigRepository :=
  write c fun d => { d with Account := account }

def SetResourceGroup (c : bxConfigRepository) (group : models.ResourceGroup) : bxConfigRepository :=
  write c fun d => { d with ResourceGroup := group }

def SetPluginRepo (c : bxConfigRepository) (pluginRepo : models.PluginRepo) : bxConfigRepository :=
  write c fun d => { d with PluginRepos := d.PluginRepos ++ [pluginRepo] }

/-- The removal loop of `UnSetPluginRepo`: `List.findIdx` returns the length
when nothing matches, exactly like the Go index loop; removal is
`append(PluginRepos[:i], PluginRepos[i+1:]...) = eraseIdx i`. -/
def UnSetPluginRepo (c : bxConfigRepository) (repoName : String) : bxConfigRepository :=
  write c fun d =>
    let i := d.PluginRepos.findIdx fun r => goToLower r.Name == goToLower repoName
    if i ≠ d.PluginRepos.length then
      { d with PluginRepos := d.PluginRepos.eraseIdx i }
    else d

def SetHTTPTimeout (c : bxConfigRepository) (timeout : Int) : bxConfigRepository :=
  write c fun d => { d with HTTPTimeout := timeout }

def SetCheckCLIVersionDisabled (c : bxConfigRepository) (disabled : Bool) : bxConfigRepository :=
  write c fun d => { d with CheckCLIVersionDisabled := disabled }

def SetCLIInfoEndpoint (c : bxConfigRepository) (endpoint : String) : bxConfigRepository :=
  write c fun d => { d with CLIInfoEndpoint := endpoint }

def SetUsageStatsDisabled (c : bxConfigRepository) (disabled : Bool) : bxConfigRepository :=
  write c fun d => { d with UsageStatsDisabled := disabled }

def SetColorEnabled (c : bxConfigRepository) (enabled : String) : bxConfigRepository :=
  write c fun d => { d with ColorEnabled := enabled }

def SetLocale (c : bxConfigRepository) (locale : String) : bxConfigRepository :=
  write c fun d => { d with Locale := locale }

def SetTrace (c : bxConfigRepository) (trace : String) : bxConfigRepository :=
  write c fun d => { d with Trace := trace }

def ClearSession (c : bxConfigRepository) : bxConfigRepository :=
  write c fun d =>
    { d with IAMToken := "", IAMRefreshToken := "",
             Account := { GUID := "" },
             ResourceGroup := { GUID := "", Name := "" } }

def ClearAPICache (c : bxConfigRepository) : bxConfigRepository :=
  write c fun d =>
    { d with Region := "", RegionID := "", ConsoleEndpoint := "", IAMEndpoint := "" }

end bxConfigRepository

/-- The specification's classification of a region id, written from the
spec's words: "" when the id is empty or does not split into exactly three
colon-separated segments; the first segment verbatim when it is not "ibm";
otherwise "bluemix" for deployment "yp", "staging" for a deployment starting
with "ys", and "" else. -/
def cloudNameSpec (rid : String) : String :=
  let parts := goSplit rid ':'
  if rid = "" ∨ parts.length ≠ 3 then ""
  else if parts[0]! ≠ "ibm" then parts[0]!
  else if parts[1]! = "yp" then "bluemix"
  else if goStartsWith parts[1]! "ys" then "staging"
  else ""

/-- A repository whose persistor loads a document holding the given region
id, so that `CloudName` can be exercised end to end. -/
def mkRegionRepo (rid : String) : bxConfigRepository :=
  createBluemixConfigFromPersistor
    { loadErr := none
      loadData := { NewBXConfigData with RegionID := rid }
      saveErr := none }

/-- A fully populated sample document, with a raw map carrying an unknown
key, used to exercise concrete executions. -/
def sampleDoc : BXConfigData :=
  { NewBXConfigData with
      ConsoleEndpoint := "https://console.test"
      Region := "us-south"
      RegionID := "ibm:yp:us-south"
      RegionType := "dedicated"
      IAMEndpoint := "https://iam.test"
      IAMToken := "tok0"
      IAMRefreshToken := "refresh0"
      Account := { GUID := "acc-guid" }
      ResourceGroup := { GUID := "rg-guid", Name := "default" }
      PluginRepos := [{ Name := "Foo", URL := "https://foo.test" }]
      Locale := "en_US"
      Trace := "true"
      ColorEnabled := "true"
      HTTPTimeout := 60
      CLIInfoEndpoint := "https://cli.test"
      raw := [("IAMToken", .jstr "tok0"),
              ("IAMRefreshToken", .jstr "refresh0"),
              ("NewFangledKey", .jstr "keep-me")] }

/-- A repository whose persistor loads `sampleDoc` and saves successfully. -/
def sampleRepo : bxConfigRepository :=
  createBluemixConfigFromPersistor
    { loadErr := none, loadData := sampleDoc, saveErr := none }

/-- A repository whose persistor loads `sampleDoc` but fails every save. -/
def failingSaveRepo : bxConfigRepository :=
  createBluemixConfigFromPersistor
    { loadErr := none, loadData := sampleDoc, saveErr := some "disk full" }

/-- A persistor whose `Load` fails (e.g. a corrupt config file). -/
def failLoadPersistor : Persistor :=
  { loadErr := some "corrupt", loadData := NewBXConfigData, saveErr := none }

/-- One public repository operation, with getter results discarded, so that
temporal properties can be stated over arbitrary operation sequences. -/
inductive RepoOp where
  | getConsoleEndpoint
  | getRegion
  | getCloudName
  | getCloudType
  | getIAMEndpoint
  | getIAMToken
  | getIAMRefreshToken
  | getAccount
  | getHasAccount
  | getResourceGroup
  | getHasResourceGroup
  | getPluginRepos
  | getPluginRepo (name : String)
  | getLocale
  | getTrace
  | getColorEnabled
  | getHTTPTimeout
  | getCLIInfoEndpoint
  | getCheckCLIVersionDisabled
  | getUsageStatsDisabled
  | setConsoleEndpoint (endpoint : String)
  | setRegion (region : models.Region)
  | setIAMEndpoint (endpoint : String)
  | setIAMToken (token : String)
  | setIAMRefreshToken (token : String)
  | setAccount (account : models.Account)
  | setResourceGroup (group : models.ResourceGroup)
  | setPluginRepo (r : models.PluginRepo)
  | unSetPluginRepo (name : String)
  | setHTTPTimeout (t : Int)
  | setCheckCLIVersionDisabled (b : Bool)
  | setCLIInfoEndpoint (endpoint : String)
  | setUsageStatsDisabled (b : Bool)
  | setColorEnabled (s : String)
  | setLocale (s : String)
  | setTrace (s : String)
  | clearSession
  | clearAPICache

/-- The state effect of one repository operation. -/
def applyOp (op : RepoOp) (c : bxConfigRepository) : bxConfigRepository :=
  match op with
  | .getConsoleEndpoint => (bxConfigRepository.ConsoleEndpoint c).2
  | .getRegion => (bxConfigRepository.Region c).2
  | .getCloudName => (bxConfigRepository.CloudName c).2
  | .getCloudType => (bxConfigRepository.CloudType c).2
  | .getIAMEndpoint => (bxConfigRepository.IAMEndpoint c).2
  | .getIAMToken => (bxConfigRepository.IAMToken c).2
  | .getIAMRefreshToken => (bxConfigRepository.IAMRefreshToken c).2
  | .getAccount => (bxConfigRepository.Account c).2
  | .getHasAccount => (bxConfigRepository.HasAccount c).2
  | .getResourceGroup => (bxConfigRepository.ResourceGroup c).2
  | .getHasResourceGroup => (bxConfigRepository.HasResourceGroup c).2
  | .getPluginRepos => (bxConfigRepository.PluginRepos c).2
  | .getPluginRepo name => (bxConfigRepository.PluginRepo c name).2
  | .getLocale => (bxConfigRepository.Locale c).2
  | .getTrace => (bxConfigRepository.Trace c).2
  | .getColorEnabled => (bxConfigRepository.ColorEnabled c).2
  | .getHTTPTimeout => (bxConfigRepository.HTTPTimeout c).2
  | .getCLIInfoEndpoint => (bxConfigRepository.CLIInfoEndpoint c).2
  | .getCheckCLIVersionDisabled => (bxConfigRepository.CheckCLIVersionDisabled c).2
  | .getUsageStatsDisabled => (bxConfigRepository.UsageStatsDisabled c).2
  | .setConsoleEndpoint e => bxConfigRepository.SetConsoleEndpoint c e
  | .setRegion r => bxConfigRepository.SetRegion c r
  | .setIAMEndpoint e => bxConfigRepository.SetIAMEndpoint c e
  | .setIAMToken t => bxConfigRepository.SetIAMToken c t
  | .setIAMRefreshToken t => bxConfigRepository.SetIAMRefreshToken c t
  | .setAccount a => bxConfigRepository.SetAccount c a
  | .setResourceGroup g => bxConfigRepository.SetResourceGroup c g
  | .setPluginRepo r => bxConfigRepository.SetPluginRepo c r
  | .unSetPluginRepo n => bxConfigRepository.UnSetPluginRepo c n
  | .setHTTPTimeout t => bxConfigRepository.SetHTTPTimeout c t
  | .setCheckCLIVersionDisabled b => bxConfigRepository.SetCheckCLIVersionDisabled c b
  | .setCLIInfoEndpoint e => bxConfigRepository.SetCLIInfoEndpoint c e
  | .setUsageStatsDisabled b => bxConfigRepository.SetUsageStatsDisabled c b
  | .setColorEnabled s => bxConfigRepository.SetColorEnabled c s
  | .setLocale s => bxConfigRepository.SetLocale c s
  | .setTrace s => bxConfigRepository.SetTrace c s
  | .clearSession => bxConfigRepository.ClearSession c
  | .clearAPICache => bxConfigRepository.ClearAPICache c

/-- Run a sequence of operations left to right on a repository state. -/
def runOps (ops : List RepoOp) (c : bxConfigRepository) : bxConfigRepository :=
  ops.foldl (fun c op => applyOp op c) c

/-!  General lemmas about the initialization gate.  -/

theorem init_initDone (c : bxConfigRepository) :
    (bxConfigRepository.init c).initDone = true := by
  unfold bxConfigRepository.init
  split
  · assumption
  · split <;> rfl

theorem init_of_initDone (c : bxConfigRepository) (h : c.initDone = true) :
    bxConfigRepository.init c = c := by
  unfold bxConfigRepository.init
  simp [h]

theorem write_data (c : bxConfigRepository) (f : BXConfigData → BXConfigData) :
    (bxConfigRepository.write c f).data =
      { f (bxConfigRepository.init c).data with
          raw := structsMap (f (bxConfigRepository.init c).data) } := by
  simp only [bxConfigRepository.write]
  split <;> rfl

theorem writeRaw_data (c : bxConfigRepository) (f : BXConfigData → BXConfigData) :
    (bxConfigRepository.writeRaw c f).data = f (bxConfigRepository.init c).data := by
  simp only [bxConfigRepository.writeRaw]
  split <;> rfl

theorem write_savedLog (c : bxConfigRepository) (f : BXConfigData → BXConfigData) :
    (bxConfigRepository.write c f).savedLog =
      (bxConfigRepository.init c).savedLog ++
        [SavedVal.doc (bxConfigRepository.write c f).data] := by
  rw [write_data]
  simp only [bxConfigRepository.write]
  split <;> rfl

theorem writeRaw_savedLog (c : bxConfigRepository) (f : BXConfigData → BXConfigData) :
    (bxConfigRepository.writeRaw c f).savedLog =
      (bxConfigRepository.init c).savedLog ++
        [SavedVal.rawMap (f (bxConfigRepository.init c).data).raw] := by
  simp only [bxConfigRepository.writeRaw]
  split <;> rfl

theorem write_handled (c : bxConfigRepository) (f : BXConfigData → BXConfigData) :
    (bxConfigRepository.write c f).handled =
      match c.persistor.saveErr with
      | some e => (bxConfigRepository.init c).handled ++ [e]
      | none => (bxConfigRepository.init c).handled := by
  have hp : (bxConfigRepository.init c).persistor = c.persistor := by
    unfold bxConfigRepository.init
    split
    · rfl
    · split <;> rfl
  simp only [bxConfigRepository.write, hp]
  split <;> rfl

theorem writeRaw_handled (c : bxConfigRepository) (f : BXConfigData → BXConfigData) :
    (bxConfigRepository.writeRaw c f).handled =
      match c.persistor.saveErr with
      | some e => (bxConfigRepository.init c).handled ++ [e]
      | none => (bxConfigRepository.init c).handled := by
  have hp : (bxConfigRepository.init c).persistor = c.persistor := by
    unfold bxConfigRepository.init
    split
    · rfl
    · split <;> rfl
  simp only [bxConfigRepository.writeRaw, hp]
  split <;> rfl

/-- C6: `CloudName()` returns "" when the region id is empty or does not
split into exactly three colon-separated segments; the first segment verbatim
when it is not "ibm"; and for customer "ibm": "bluemix" when the deployment
segment is "yp", "staging" when it starts with "ys", "" otherwise — with the
spec's table checked both on the classifier and end to end on a repository. -/
theorem cloudName_classification :
    (∀ c, (bxConfigRepository.CloudName c).1 =
      cloudNameSpec (bxConfigRepository.Region c).1.ID) ∧
    (bxConfigRepository.CloudName (mkRegionRepo "ibm:yp:us-south")).1 = "bluemix" ∧
    (bxConfigRepository.CloudName (mkRegionRepo "ibm:ys1:eu-gb")).1 = "staging" ∧
    (bxConfigRepository.CloudName (mkRegionRepo "ibm:prod:us-south")).1 = "" ∧
    (bxConfigRepository.CloudName (mkRegionRepo "softlayer:yp:dal")).1 = "softlayer" ∧
    (bxConfigRepository.CloudName (mkRegionRepo "")).1 = "" ∧
    (bxConfigRepository.CloudName (mkRegionRepo "a:b")).1 = "" := by
  refine ⟨fun c => ?_, by decide, by decide, by decide, by decide, by decide, by decide⟩
  by_cases hrid : (bxConfigRepository.Region c).1.ID = ""
  · simp [bxConfigRepository.CloudName, cloudNameSpec, hrid, goSplit, goSplitAux]
  · rcases h : goSplit ((bxConfigRepository.Region c).1.ID) ':' with
      _ | ⟨a, _ | ⟨b, _ | ⟨l, _ | ⟨x, xs⟩⟩⟩⟩ <;>
      simp [bxConfigRepository.CloudName, cloudNameSpec, hrid, h]

/-- C7 counterexample: on a state whose region type is "dedicated",
`ClearAPICache()` leaves the region type untouched (the code resets only the
region name, region id, console endpoint and IAM endpoint), so the claim
that the whole region entity — including its type — is reset is false. -/
theorem clearAPICache_regionType_survives :
    (bxConfigRepository.ClearAPICache sampleRepo).data.RegionType = "dedicated" ∧
    ("dedicated" : String) ≠ "" := by
  constructor
  · decide
  · decide

/-- C7 (amended): `ClearAPICache()` resets the region display name, the
region id, the console endpoint and the IAM endpoint to empty, and leaves
the region type, both IAM tokens, and every other typed field unchanged. -/
theorem clearAPICache_frame (c : bxConfigRepository) :
    (bxConfigRepository.ClearAPICache c).data.Region = "" ∧
    (bxConfigRepository.ClearAPICache c).data.RegionID = "" ∧
    (bxConfigRepository.ClearAPICache c).data.ConsoleEndpoint = "" ∧
    (bxConfigRepository.ClearAPICache c).data.IAMEndpoint = "" ∧
    (bxConfigRepository.ClearAPICache c).data.RegionType =
      (bxConfigRepository.init c).data.RegionType ∧
    (bxConfigRepository.ClearAPICache c).data.IAMToken =
      (bxConfigRepository.init c).data.IAMToken ∧
    (bxConfigRepository.ClearAPICache c).data.IAMRefreshToken =
      (bxConfigRepository.init c).data.IAMRefreshToken ∧
    (bxConfigRepository.ClearAPICache c).data.IAMID =
      (bxConfigRepository.init c).data.IAMID ∧
    (bxConfigRepository.ClearAPICache c).data.Account =
      (bxConfigRepository.init c).data.Account ∧
    (bxConfigRepository.ClearAPICache c).data.ResourceGroup =
      (bxConfigRepository.init c).data.ResourceGroup ∧
    (bxConfigRepository.ClearAPICache c).data.PluginRepos =
      (bxConfigRepository.init c).data.PluginRepos ∧
    (bxConfigRepository.ClearAPICache c).data.Locale =
      (bxConfigRepository.init c).data.Locale ∧
    (bxConfigRepository.ClearAPICache c).data.Trace =
      (bxConfigRepository.init c).data.Trace ∧
    (bxConfigRepository.ClearAPICache c).data.ColorEnabled =
      (bxConfigRepository.init c).data.ColorEnabled ∧
    (bxConfigRepository.ClearAPICache c).data.HTTPTimeout =
      (bxConfigRepository.init c).data.HTTPTimeout ∧
    (bxConfigRepository.ClearAPICache c).data.CLIInfoEndpoint =
      (bxConfigRepository.init c).data.CLIInfoEndpoint ∧
    (bxConfigRepository.ClearAPICache c).data.CheckCLIVersionDisabled =
      (bxConfigRepository.init c).data.CheckCLIVersionDisabled ∧
    (bxConfigRepository.ClearAPICache c).data.UsageStatsDisabled =
      (bxConfigRepository.init c).data.UsageStatsDisabled := by
  simp only [bxConfigRepository.ClearAPICache, write_data]
  and_intros <;> trivial

/-- C8: `ClearSession()` resets the IAM access token, the IAM refresh token,
the account and the resource group to their empty values, and leaves the
region fields, the console endpoint and every other typed field unchanged. -/
theorem clearSession_frame (c : bxConfigRepository) :
    (bxConfigRepository.ClearSession c).data.IAMToken = "" ∧
    (bxConfigRepository.ClearSession c).data.IAMRefreshToken = "" ∧
    (bxConfigRepository.ClearSession c).data.Account = { GUID := "" } ∧
    (bxConfigRepository.ClearSession c).data.ResourceGroup = { GUID := "", Name := "" } ∧
    (bxConfigRepository.ClearSession c).data.Region =
      (bxConfigRepository.init c).data.Region ∧
    (bxConfigRepository.ClearSession c).data.RegionID =
      (bxConfigRepository.init c).data.RegionID ∧
    (bxConfigRepository.ClearSession c).data.RegionType =
      (bxConfigRepository.init c).data.RegionType ∧
    (bxConfigRepository.ClearSession c).data.ConsoleEndpoint =
      (bxConfigRepository.init c).data.ConsoleEndpoint ∧
    (bxConfigRepository.ClearSession c).data.IAMEndpoint =
      (bxConfigRepository.init c).data.IAMEndpoint ∧
    (bxConfigRepository.ClearSession c).data.IAMID =
      (bxConfigRepository.init c).data.IAMID ∧
    (bxConfigRepository.ClearSession c).data.PluginRepos =
      (bxConfigRepository.init c).data.PluginRepos ∧
    (bxConfigRepository.ClearSession c).data.Locale =
      (bxConfigRepository.init c).data.Locale ∧
    (bxConfigRepository.ClearSession c).data.Trace =
      (bxConfigRepository.init c).data.Trace ∧
    (bxConfigRepository.ClearSession c).data.ColorEnabled =
      (bxConfigRepository.init c).data.ColorEnabled ∧
    (bxConfigRepository.ClearSession c).data.HTTPTimeout =
      (bxConfigRepository.init c).data.HTTPTimeout ∧
    (bxConfigRepository.ClearSession c).data.CLIInfoEndpoint =
      (bxConfigRepository.init c).data.CLIInfoEndpoint ∧
    (bxConfigRepository.ClearSession c).data.CheckCLIVersionDisabled =
      (bxConfigRepository.init c).data.CheckCLIVersionDisabled ∧
    (bxConfigRepository.ClearSession c).data.UsageStatsDisabled =
      (bxConfigRepository.init c).data.UsageStatsDisabled := by
  simp only [bxConfigRepository.ClearSession, write_data]
  and_intros <;> trivial

/-!  Lemmas about the raw-map update and about state flags.  -/

theorem rawSet_lookup_self (l : List (String × JVal)) (k : String) (v : JVal) :
    (rawSet l k v).lookup k = some v := by
  induction l with
  | nil => simp [rawSet, List.lookup]
  | cons p rest ih =>
      obtain ⟨ka, va⟩ := p
      by_cases h : ka = k
      · simp [rawSet, h, List.lookup]
      · have hb : (k == ka) = false := beq_eq_false_iff_ne.mpr (Ne.symm h)
        simp [rawSet, h, List.lookup, hb, ih]

theorem rawSet_lookup_ne (l : List (String × JVal)) (k k' : String) (v : JVal)
    (h : k' ≠ k) : (rawSet l k v).lookup k' = l.lookup k' := by
  induction l with
  | nil => simp [rawSet, List.lookup, beq_eq_false_iff_ne.mpr h]
  | cons p rest ih =>
      obtain ⟨ka, va⟩ := p
      by_cases hk : ka = k
      · subst hk
        simp [rawSet, List.lookup, beq_eq_false_iff_ne.mpr h]
      · simp only [rawSet, if_neg hk]
        by_cases hk' : ka = k'
        · subst hk'
          simp [List.lookup, ih]
        · simp [List.lookup, beq_eq_false_iff_ne.mpr (Ne.symm hk'), ih]

theorem write_initDone (c : bxConfigRepository) (f : BXConfigData → BXConfigData) :
    (bxConfigRepository.write c f).initDone = true := by
  simp only [bxConfigRepository.write]
  split <;> exact init_initDone c

theorem writeRaw_initDone (c : bxConfigRepository) (f : BXConfigData → BXConfigData) :
    (bxConfigRepository.writeRaw c f).initDone = true := by
  simp only [bxConfigRepository.writeRaw]
  split <;> exact init_initDone c

theorem write_loadCount (c : bxConfigRepository) (f : BXConfigData → BXConfigData) :
    (bxConfigRepository.write c f).loadCount = (bxConfigRepository.init c).loadCount := by
  simp only [bxConfigRepository.write]
  split <;> rfl

theorem writeRaw_loadCount (c : bxConfigRepository) (f : BXConfigData → BXConfigData) :
    (bxConfigRepository.writeRaw c f).loadCount = (bxConfigRepository.init c).loadCount := by
  simp only [bxConfigRepository.writeRaw]
  split <;> rfl

theorem read_fst (c : bxConfigRepository) (f : BXConfigData → α) :
    (bxConfigRepository.read c f).1 = f (bxConfigRepository.init c).data := rfl

theorem read_snd (c : bxConfigRepository) (f : BXConfigData → α) :
    (bxConfigRepository.read c f).2 = bxConfigRepository.init c := rfl

theorem getLast?_append_singleton (l : List α) (a : α) :
    (l ++ [a]).getLast? = some a := by
  simp [List.getLast?_concat]

theorem setIAMToken_data (c : bxConfigRepository) (t : String) :
    (bxConfigRepository.SetIAMToken c t).data =
      { (bxConfigRepository.init c).data with
          IAMToken := t
          raw := rawSet (bxConfigRepository.init c).data.raw "IAMToken" (.jstr t) } := by
  simp only [bxConfigRepository.SetIAMToken]
  rw [writeRaw_data]

theorem setIAMRefreshToken_data (c : bxConfigRepository) (t : String) :
    (bxConfigRepository.SetIAMRefreshToken c t).data =
      { (bxConfigRepository.init c).data with
          IAMRefreshToken := t
          raw := rawSet (bxConfigRepository.init c).data.raw "IAMRefreshToken" (.jstr t) } := by
  simp only [bxConfigRepository.SetIAMRefreshToken]
  rw [writeRaw_data]

theorem setIAMToken_init (c : bxConfigRepository) (t : String) :
    bxConfigRepository.init (bxConfigRepository.SetIAMToken c t) =
      bxConfigRepository.SetIAMToken c t :=
  init_of_initDone _ (writeRaw_initDone c _)

theorem setIAMRefreshToken_init (c : bxConfigRepository) (t : String) :
    bxConfigRepository.init (bxConfigRepository.SetIAMRefreshToken c t) =
      bxConfigRepository.SetIAMRefreshToken c t :=
  init_of_initDone _ (writeRaw_initDone c _)

theorem setIAMToken_savedLog (c : bxConfigRepository) (t : String) :
    (bxConfigRepository.SetIAMToken c t).savedLog =
      (bxConfigRepository.init c).savedLog ++
        [SavedVal.rawMap (bxConfigRepository.SetIAMToken c t).data.raw] := by
  rw [setIAMToken_data]
  simp only [bxConfigRepository.SetIAMToken]
  rw [writeRaw_savedLog]

theorem setIAMRefreshToken_savedLog (c : bxConfigRepository) (t : String) :
    (bxConfigRepository.SetIAMRefreshToken c t).savedLog =
      (bxConfigRepository.init c).savedLog ++
        [SavedVal.rawMap (bxConfigRepository.SetIAMRefreshToken c t).data.raw] := by
  rw [setIAMRefreshToken_data]
  simp only [bxConfigRepository.SetIAMRefreshToken]
  rw [writeRaw_savedLog]

/-- C1: `SetIAMToken` (and `SetIAMRefreshToken`) updates both the typed
token field and the same-named key of the raw map, persists the raw map —
not the typed document — and leaves an unrelated raw key `K` and its value
in place; in particular after `SetIAMToken "tok1"` then `SetIAMToken "tok2"`
the `IAMToken()` getter reads `"tok2"` and `K` is still present. -/
theorem setIAMToken_raw_preserving (c : bxConfigRepository) (K : String) (v : JVal)
    (tok1 tok2 rtok : String)
    (hK1 : K ≠ "IAMToken") (hK2 : K ≠ "IAMRefreshToken")
    (hpresent : ((bxConfigRepository.init c).data.raw).lookup K = some v) :
    (bxConfigRepository.IAMToken
      (bxConfigRepository.SetIAMToken (bxConfigRepository.SetIAMToken c tok1) tok2)).1 = tok2 ∧
    ((bxConfigRepository.SetIAMToken (bxConfigRepository.SetIAMToken c tok1) tok2)).data.raw.lookup
      "IAMToken" = some (.jstr tok2) ∧
    ((bxConfigRepository.SetIAMToken (bxConfigRepository.SetIAMToken c tok1) tok2)).data.raw.lookup
      K = some v ∧
    ((bxConfigRepository.SetIAMToken (bxConfigRepository.SetIAMToken c tok1) tok2)).savedLog.getLast? =
      some (SavedVal.rawMap
        ((bxConfigRepository.SetIAMToken (bxConfigRepository.SetIAMToken c tok1) tok2)).data.raw) ∧
    (bxConfigRepository.SetIAMRefreshToken c rtok).data.IAMRefreshToken = rtok ∧
    (bxConfigRepository.SetIAMRefreshToken c rtok).data.raw.lookup "IAMRefreshToken" =
      some (.jstr rtok) ∧
    (bxConfigRepository.SetIAMRefreshToken c rtok).data.raw.lookup K = some v ∧
    (bxConfigRepository.SetIAMRefreshToken c rtok).savedLog.getLast? =
      some (SavedVal.rawMap (bxConfigRepository.SetIAMRefreshToken c rtok).data.raw) := by
  have hgoal1 : ((bxConfigRepository.SetIAMToken (bxConfigRepository.SetIAMToken c tok1) tok2)).data.IAMToken = tok2 := by
    rw [setIAMToken_data]
  have e1 : ((bxConfigRepository.SetIAMToken (bxConfigRepository.SetIAMToken c tok1) tok2)).data.raw.lookup K =
      (bxConfigRepository.SetIAMToken c tok1).data.raw.lookup K := by
    rw [setIAMToken_data, setIAMToken_init]
    exact rawSet_lookup_ne _ _ _ _ hK1
  have e2 : (bxConfigRepository.SetIAMToken c tok1).data.raw.lookup K =
      ((bxConfigRepository.init c).data.raw).lookup K := by
    rw [setIAMToken_data]
    exact rawSet_lookup_ne _ _ _ _ hK1
  refine ⟨?_, ?_, ?_, ?_, ?_, ?_, ?_, ?_⟩
  · show (bxConfigRepository.init
        (bxConfigRepository.SetIAMToken (bxConfigRepository.SetIAMToken c tok1) tok2)).data.IAMToken = tok2
    rw [setIAMToken_init]
    exact hgoal1
  · rw [setIAMToken_data]
    exact rawSet_lookup_self _ _ _
  · exact (e1.trans e2).trans hpresent
  · rw [setIAMToken_savedLog]
    exact getLast?_append_singleton _ _
  · rw [setIAMRefreshToken_data]
  · rw [setIAMRefreshToken_data]
    exact rawSet_lookup_self _ _ _
  · have e3 : (bxConfigRepository.SetIAMRefreshToken c rtok).data.raw.lookup K =
        ((bxConfigRepository.init c).data.raw).lookup K := by
      rw [setIAMRefreshToken_data]
      exact rawSet_lookup_ne _ _ _ _ hK2
    exact e3.trans hpresent
  · rw [setIAMRefreshToken_savedLog]
    exact getLast?_append_singleton _ _

/-- C1 witness: concrete run on `sampleRepo`, whose raw map carries the
unrelated key "NewFangledKey". -/
theorem setIAMToken_raw_preserving_witness :
    (("NewFangledKey" : String) ≠ "IAMToken") ∧
    (("NewFangledKey" : String) ≠ "IAMRefreshToken") ∧
    ((bxConfigRepository.init sampleRepo).data.raw).lookup "NewFangledKey" =
      some (.jstr "keep-me") ∧
    ((bxConfigRepository.IAMToken
      (bxConfigRepository.SetIAMToken (bxConfigRepository.SetIAMToken sampleRepo "tok1") "tok2")).1 = "tok2" ∧
    ((bxConfigRepository.SetIAMToken (bxConfigRepository.SetIAMToken sampleRepo "tok1") "tok2")).data.raw.lookup
      "IAMToken" = some (.jstr "tok2") ∧
    ((bxConfigRepository.SetIAMToken (bxConfigRepository.SetIAMToken sampleRepo "tok1") "tok2")).data.raw.lookup
      "NewFangledKey" = some (.jstr "keep-me") ∧
    ((bxConfigRepository.SetIAMToken (bxConfigRepository.SetIAMToken sampleRepo "tok1") "tok2")).savedLog.getLast? =
      some (SavedVal.rawMap
        ((bxConfigRepository.SetIAMToken (bxConfigRepository.SetIAMToken sampleRepo "tok1") "tok2")).data.raw) ∧
    (bxConfigRepository.SetIAMRefreshToken sampleRepo "r1").data.IAMRefreshToken = "r1" ∧
    (bxConfigRepository.SetIAMRefreshToken sampleRepo "r1").data.raw.lookup "IAMRefreshToken" =
      some (.jstr "r1") ∧
    (bxConfigRepository.SetIAMRefreshToken sampleRepo "r1").data.raw.lookup "NewFangledKey" =
      some (.jstr "keep-me") ∧
    (bxConfigRepository.SetIAMRefreshToken sampleRepo "r1").savedLog.getLast? =
      some (SavedVal.rawMap (bxConfigRepository.SetIAMRefreshToken sampleRepo "r1").data.raw)) :=
  ⟨by decide, by decide, by rfl,
   setIAMToken_raw_preserving sampleRepo "NewFangledKey" (.jstr "keep-me") "tok1" "tok2" "r1"
     (by decide) (by decide) (by rfl)⟩

theorem lookup_none_of_not_mem_keys (l : List (String × JVal)) (k : String)
    (h : k ∉ l.map Prod.fst) : l.lookup k = none := by
  induction l with
  | nil => rfl
  | cons p rest ih =>
      simp only [List.map_cons, List.mem_cons] at h
      push_neg at h
      simp [List.lookup, beq_eq_false_iff_ne.mpr h.1, ih h.2]

theorem structsMap_keys (d : BXConfigData) :
    (structsMap d).map Prod.fst = typedFieldNames := rfl

/-- C2: after any full-document write (every setter except the two token
setters; `ClearSession` and `ClearAPICache` are instances of the quantified
mutation `f`), the raw map equals the untyped view regenerated from the
now-current typed document: each typed field name maps to the field's
current value, and a key `K` outside the typed schema is gone. -/
theorem write_regenerates_raw (c : bxConfigRepository)
    (f : BXConfigData → BXConfigData) (K : String) (hK : K ∉ typedFieldNames) :
    (bxConfigRepository.write c f).data.raw = structsMap (bxConfigRepository.write c f).data ∧
    (bxConfigRepository.write c f).data.raw.lookup "ConsoleEndpoint" = some (.jstr (bxConfigRepository.write c f).data.ConsoleEndpoint) ∧
    (bxConfigRepository.write c f).data.raw.lookup "Region" = some (.jstr (bxConfigRepository.write c f).data.Region) ∧
    (bxConfigRepository.write c f).data.raw.lookup "RegionID" = some (.jstr (bxConfigRepository.write c f).data.RegionID) ∧
    (bxConfigRepository.write c f).data.raw.lookup "RegionType" = some (.jstr (bxConfigRepository.write c f).data.RegionType) ∧
    (bxConfigRepository.write c f).data.raw.lookup "IAMEndpoint" = some (.jstr (bxConfigRepository.write c f).data.IAMEndpoint) ∧
    (bxConfigRepository.write c f).data.raw.lookup "IAMID" = some (.jstr (bxConfigRepository.write c f).data.IAMID) ∧
    (bxConfigRepository.write c f).data.raw.lookup "IAMToken" = some (.jstr (bxConfigRepository.write c f).data.IAMToken) ∧
    (bxConfigRepository.write c f).data.raw.lookup "IAMRefreshToken" = some (.jstr (bxConfigRepository.write c f).data.IAMRefreshToken) ∧
    (bxConfigRepository.write c f).data.raw.lookup "Account" = some (encodeAccount (bxConfigRepository.write c f).data.Account) ∧
    (bxConfigRepository.write c f).data.raw.lookup "ResourceGroup" = some (encodeResourceGroup (bxConfigRepository.write c f).data.ResourceGroup) ∧
    (bxConfigRepository.write c f).data.raw.lookup "PluginRepos" = some (.jarr ((bxConfigRepository.write c f).data.PluginRepos.map encodePluginRepo)) ∧
    (bxConfigRepository.write c f).data.raw.lookup "Locale" = some (.jstr (bxConfigRepository.write c f).data.Locale) ∧
    (bxConfigRepository.write c f).data.raw.lookup "Trace" = some (.jstr (bxConfigRepository.write c f).data.Trace) ∧
    (bxConfigRepository.write c f).data.raw.lookup "ColorEnabled" = some (.jstr (bxConfigRepository.write c f).data.ColorEnabled) ∧
    (bxConfigRepository.write c f).data.raw.lookup "HTTPTimeout" = some (.jint (bxConfigRepository.write c f).data.HTTPTimeout) ∧
    (bxConfigRepository.write c f).data.raw.lookup "CLIInfoEndpoint" = some (.jstr (bxConfigRepository.write c f).data.CLIInfoEndpoint) ∧
    (bxConfigRepository.write c f).data.raw.lookup "CheckCLIVersionDisabled" = some (.jbool (bxConfigRepository.write c f).data.CheckCLIVersionDisabled) ∧
    (bxConfigRepository.write c f).data.raw.lookup "UsageStatsDisabled" = some (.jbool (bxConfigRepository.write c f).data.UsageStatsDisabled) ∧
    (bxConfigRepository.write c f).data.raw.lookup K = none := by
  rw [write_data]
  refine ⟨rfl, rfl, rfl, rfl, rfl, rfl, rfl, rfl, rfl, rfl, rfl, rfl, rfl, rfl, rfl, rfl,
    rfl, rfl, rfl, ?_⟩
  have h : ((structsMap (f (bxConfigRepository.init c).data)).lookup K) = none :=
    lookup_none_of_not_mem_keys _ _ (by rw [structsMap_keys]; exact hK)
  exact h

/-- C2 witness: a concrete full write (a locale update) on `sampleRepo`,
whose loaded raw map carried the unknown key "NewFangledKey"; afterwards the
raw map is the regenerated untyped view and the unknown key is gone. -/
theorem write_regenerates_raw_witness :
    (("NewFangledKey" : String) ∉ typedFieldNames) ∧
    ((bxConfigRepository.write sampleRepo (fun d => { d with Locale := "fr" })).data.raw = structsMap (bxConfigRepository.write sampleRepo (fun d => { d with Locale := "fr" })).data ∧
    (bxConfigRepository.write sampleRepo (fun d => { d with Locale := "fr" })).data.raw.lookup "ConsoleEndpoint" = some (.jstr (bxConfigRepository.write sampleRepo (fun d => { d with Locale := "fr" })).data.ConsoleEndpoint) ∧
    (bxConfigRepository.write sampleRepo (fun d => { d with Locale := "fr" })).data.raw.lookup "Region" = some (.jstr (bxConfigRepository.write sampleRepo (fun d => { d with Locale := "fr" })).data.Region) ∧
    (bxConfigRepository.write sampleRepo (fun d => { d with Locale := "fr" })).data.raw.lookup "RegionID" = some (.jstr (bxConfigRepository.write sampleRepo (fun d => { d with Locale := "fr" })).data.RegionID) ∧
    (bxConfigRepository.write sampleRepo (fun d => { d with Locale := "fr" })).data.raw.lookup "RegionType" = some (.jstr (bxConfigRepository.write sampleRepo (fun d => { d with Locale := "fr" })).data.RegionType) ∧
    (bxConfigRepository.write sampleRepo (fun d => { d with Locale := "fr" })).data.raw.lookup "IAMEndpoint" = some (.jstr (bxConfigRepository.write sampleRepo (fun d => { d with Locale := "fr" })).data.IAMEndpoint) ∧
    (bxConfigRepository.write sampleRepo (fun d => { d with Locale := "fr" })).data.raw.lookup "IAMID" = some (.jstr (bxConfigRepository.write sampleRepo (fun d => { d with Locale := "fr" })).data.IAMID) ∧
    (bxConfigRepository.write sampleRepo (fun d => { d with Locale := "fr" })).data.raw.lookup "IAMToken" = some (.jstr (bxConfigRepository.write sampleRepo (fun d => { d with Locale := "fr" })).data.IAMToken) ∧
    (bxConfigRepository.write sampleRepo (fun d => { d with Locale := "fr" })).data.raw.lookup "IAMRefreshToken" = some (.jstr (bxConfigRepository.write sampleRepo (fun d => { d with Locale := "fr" })).data.IAMRefreshToken) ∧
    (bxConfigRepository.write sampleRepo (fun d => { d with Locale := "fr" })).data.raw.lookup "Account" = some (encodeAccount (bxConfigRepository.write sampleRepo (fun d => { d with Locale := "fr" })).data.Account) ∧
    (bxConfigRepository.write sampleRepo (fun d => { d with Locale := "fr" })).data.raw.lookup "ResourceGroup" = some (encodeResourceGroup (bxConfigRepository.write sampleRepo (fun d => { d with Locale := "fr" })).data.ResourceGroup) ∧
    (bxConfigRepository.write sampleRepo (fun d => { d with Locale := "fr" })).data.raw.lookup "PluginRepos" = some (.jarr ((bxConfigRepository.write sampleRepo (fun d => { d with Locale := "fr" })).data.PluginRepos.map encodePluginRepo)) ∧
    (bxConfigRepository.write sampleRepo (fun d => { d with Locale := "fr" })).data.raw.lookup "Locale" = some (.jstr (bxConfigRepository.write sampleRepo (fun d => { d with Locale := "fr" })).data.Locale) ∧
    (bxConfigRepository.write sampleRepo (fun d => { d with Locale := "fr" })).data.raw.lookup "Trace" = some (.jstr (bxConfigRepository.write sampleRepo (fun d => { d with Locale := "fr" })).data.Trace) ∧
    (bxConfigRepository.write sampleRepo (fun d => { d with Locale := "fr" })).data.raw.lookup "ColorEnabled" = some (.jstr (bxConfigRepository.write sampleRepo (fun d => { d with Locale := "fr" })).data.ColorEnabled) ∧
    (bxConfigRepository.write sampleRepo (fun d => { d with Locale := "fr" })).data.raw.lookup "HTTPTimeout" = some (.jint (bxConfigRepository.write sampleRepo (fun d => { d with Locale := "fr" })).data.HTTPTimeout) ∧
    (bxConfigRepository.write sampleRepo (fun d => { d with Locale := "fr" })).data.raw.lookup "CLIInfoEndpoint" = some (.jstr (bxConfigRepository.write sampleRepo (fun d => { d with Locale := "fr" })).data.CLIInfoEndpoint) ∧
    (bxConfigRepository.write sampleRepo (fun d => { d with Locale := "fr" })).data.raw.lookup "CheckCLIVersionDisabled" = some (.jbool (bxConfigRepository.write sampleRepo (fun d => { d with Locale := "fr" })).data.CheckCLIVersionDisabled) ∧
    (bxConfigRepository.write sampleRepo (fun d => { d with Locale := "fr" })).data.raw.lookup "UsageStatsDisabled" = some (.jbool (bxConfigRepository.write sampleRepo (fun d => { d with Locale := "fr" })).data.UsageStatsDisabled) ∧
    (bxConfigRepository.write sampleRepo (fun d => { d with Locale := "fr" })).data.raw.lookup "NewFangledKey" = none) :=
  ⟨by decide,
   write_regenerates_raw sampleRepo (fun d => { d with Locale := "fr" }) "NewFangledKey"
     (by decide)⟩

theorem setConsoleEndpoint_data (c : bxConfigRepository) (endpoint : String) :
    (bxConfigRepository.SetConsoleEndpoint c endpoint).data =
      { (bxConfigRepository.init c).data with
          ConsoleEndpoint := endpoint
          raw := structsMap
            { (bxConfigRepository.init c).data with ConsoleEndpoint := endpoint } } := by
  simp only [bxConfigRepository.SetConsoleEndpoint]
  rw [write_data]

theorem setConsoleEndpoint_init (c : bxConfigRepository) (endpoint : String) :
    bxConfigRepository.init (bxConfigRepository.SetConsoleEndpoint c endpoint) =
      bxConfigRepository.SetConsoleEndpoint c endpoint :=
  init_of_initDone _ (write_initDone c _)

/-- C5: when `Persistor.Save` fails, the error is handed to the injected
handler and the in-memory mutation is not rolled back, on both the
full-document path and the raw path; a subsequent read of the mutated field
returns the new value.  (In the embedding every setter returns only the
updated state and every getter only a value and a state, so no error is ever
returned to the caller — the handler list is the sole error channel.) -/
theorem save_failure_no_rollback (c : bxConfigRepository) (e : String)
    (f : BXConfigData → BXConfigData) (endpoint token : String)
    (hsave : c.persistor.saveErr = some e) :
    (bxConfigRepository.write c f).data =
      { f (bxConfigRepository.init c).data with
          raw := structsMap (f (bxConfigRepository.init c).data) } ∧
    e ∈ (bxConfigRepository.write c f).handled ∧
    (bxConfigRepository.writeRaw c f).data = f (bxConfigRepository.init c).data ∧
    e ∈ (bxConfigRepository.writeRaw c f).handled ∧
    (bxConfigRepository.ConsoleEndpoint
      (bxConfigRepository.SetConsoleEndpoint c endpoint)).1 = endpoint ∧
    e ∈ (bxConfigRepository.SetConsoleEndpoint c endpoint).handled ∧
    (bxConfigRepository.IAMToken (bxConfigRepository.SetIAMToken c token)).1 = token ∧
    e ∈ (bxConfigRepository.SetIAMToken c token).handled := by
  refine ⟨write_data c f, ?_, writeRaw_data c f, ?_, ?_, ?_, ?_, ?_⟩
  · rw [write_handled, hsave]
    simp
  · rw [writeRaw_handled, hsave]
    simp
  · show (bxConfigRepository.init
        (bxConfigRepository.SetConsoleEndpoint c endpoint)).data.ConsoleEndpoint = endpoint
    rw [setConsoleEndpoint_init, setConsoleEndpoint_data]
  · show e ∈ (bxConfigRepository.write c
        (fun d => { d with ConsoleEndpoint := endpoint })).handled
    rw [write_handled, hsave]
    simp
  · show (bxConfigRepository.init
        (bxConfigRepository.SetIAMToken c token)).data.IAMToken = token
    rw [setIAMToken_init, setIAMToken_data]
  · show e ∈ (bxConfigRepository.writeRaw c
        (fun d => { d with IAMToken := token,
                           raw := rawSet d.raw "IAMToken" (.jstr token) })).handled
    rw [writeRaw_handled, hsave]
    simp

/-- C5 witness: concrete run on `failingSaveRepo`, whose persistor fails
every save with "disk full". -/
theorem save_failure_no_rollback_witness :
    failingSaveRepo.persistor.saveErr = some "disk full" ∧
    ((bxConfigRepository.write failingSaveRepo (fun d => { d with Trace := "on" })).data =
      { (fun d => { d with Trace := "on" }) (bxConfigRepository.init failingSaveRepo).data with
          raw := structsMap
            ((fun d => { d with Trace := "on" }) (bxConfigRepository.init failingSaveRepo).data) } ∧
    "disk full" ∈ (bxConfigRepository.write failingSaveRepo
      (fun d => { d with Trace := "on" })).handled ∧
    (bxConfigRepository.writeRaw failingSaveRepo (fun d => { d with Trace := "on" })).data =
      (fun d => { d with Trace := "on" }) (bxConfigRepository.init failingSaveRepo).data ∧
    "disk full" ∈ (bxConfigRepository.writeRaw failingSaveRepo
      (fun d => { d with Trace := "on" })).handled ∧
    (bxConfigRepository.ConsoleEndpoint
      (bxConfigRepository.SetConsoleEndpoint failingSaveRepo "https://new.console")).1 =
        "https://new.console" ∧
    "disk full" ∈ (bxConfigRepository.SetConsoleEndpoint failingSaveRepo
      "https://new.console").handled ∧
    (bxConfigRepository.IAMToken
      (bxConfigRepository.SetIAMToken failingSaveRepo "tokX")).1 = "tokX" ∧
    "disk full" ∈ (bxConfigRepository.SetIAMToken failingSaveRepo "tokX").handled) :=
  ⟨by rfl,
   save_failure_no_rollback failingSaveRepo "disk full" (fun d => { d with Trace := "on" })
     "https://new.console" "tokX" (by rfl)⟩

/-!  Lemmas for the plugin-repo list operations.  -/

theorem bxConfigRepository.pluginRepoFind_found (pre post : List models.PluginRepo)
    (r : models.PluginRepo) (name : String)
    (hpre : ∀ x ∈ pre, goToLower x.Name ≠ goToLower name)
    (hr : goToLower r.Name = goToLower name) :
    bxConfigRepository.pluginRepoFind (pre ++ r :: post) name = (r, true) := by
  induction pre with
  | nil => simp [bxConfigRepository.pluginRepoFind, hr]
  | cons a as ih =>
      simp only [List.cons_append, bxConfigRepository.pluginRepoFind,
        beq_eq_false_iff_ne.mpr (hpre a (List.mem_cons_self a as)), if_false]
      exact ih fun x hx => hpre x (List.mem_cons_of_mem a hx)

theorem bxConfigRepository.pluginRepoFind_not_found (l : List models.PluginRepo) (name : String)
    (h : ∀ x ∈ l, goToLower x.Name ≠ goToLower name) :
    bxConfigRepository.pluginRepoFind l name = ({ Name := "", URL := "" }, false) := by
  induction l with
  | nil => rfl
  | cons a as ih =>
      simp only [bxConfigRepository.pluginRepoFind,
        beq_eq_false_iff_ne.mpr (h a (List.mem_cons_self a as)), if_false]
      exact ih fun x hx => h x (List.mem_cons_of_mem a hx)

theorem findIdx_first_match (pre post : List models.PluginRepo)
    (r : models.PluginRepo) (name : String)
    (hpre : ∀ x ∈ pre, goToLower x.Name ≠ goToLower name)
    (hr : goToLower r.Name = goToLower name) :
    ((pre ++ r :: post).findIdx fun x => goToLower x.Name == goToLower name) =
      pre.length := by
  induction pre with
  | nil => simp [List.findIdx_cons, hr]
  | cons a as ih =>
      simp only [List.cons_append, List.findIdx_cons,
        beq_eq_false_iff_ne.mpr (hpre a (List.mem_cons_self a as)), cond_false,
        List.length_cons]
      rw [ih fun x hx => hpre x (List.mem_cons_of_mem a hx)]

theorem findIdx_no_match (l : List models.PluginRepo) (name : String)
    (h : ∀ x ∈ l, goToLower x.Name ≠ goToLower name) :
    (l.findIdx fun x => goToLower x.Name == goToLower name) = l.length := by
  induction l with
  | nil => rfl
  | cons a as ih =>
      simp only [List.findIdx_cons,
        beq_eq_false_iff_ne.mpr (h a (List.mem_cons_self a as)), cond_false,
        List.length_cons]
      rw [ih fun x hx => h x (List.mem_cons_of_mem a hx)]

theorem eraseIdx_append_length (pre post : List α) (r : α) :
    (pre ++ r :: post).eraseIdx pre.length = pre ++ post := by
  induction pre with
  | nil => rfl
  | cons a as ih => simp [List.eraseIdx, ih]

theorem unSetPluginRepo_pluginRepos (c : bxConfigRepository) (name : String) :
    (bxConfigRepository.UnSetPluginRepo c name).data.PluginRepos =
      (if ((bxConfigRepository.init c).data.PluginRepos.findIdx
            fun r => goToLower r.Name == goToLower name) ≠
          (bxConfigRepository.init c).data.PluginRepos.length
       then (bxConfigRepository.init c).data.PluginRepos.eraseIdx
          ((bxConfigRepository.init c).data.PluginRepos.findIdx
            fun r => goToLower r.Name == goToLower name)
       else (bxConfigRepository.init c).data.PluginRepos) := by
  simp only [bxConfigRepository.UnSetPluginRepo]
  rw [write_data]
  split <;> simp_all

theorem setPluginRepo_pluginRepos (c : bxConfigRepository) (r : models.PluginRepo) :
    (bxConfigRepository.SetPluginRepo c r).data.PluginRepos =
      (bxConfigRepository.init c).data.PluginRepos ++ [r] := by
  simp only [bxConfigRepository.SetPluginRepo]
  rw [write_data]

theorem setPluginRepo_init (c : bxConfigRepository) (r : models.PluginRepo) :
    bxConfigRepository.init (bxConfigRepository.SetPluginRepo c r) =
      bxConfigRepository.SetPluginRepo c r :=
  init_of_initDone _ (write_initDone c _)

/-- C9: `PluginRepo(name)` returns the first entry whose name matches
case-insensitively together with `true`, and the empty entry with `false`
when nothing matches; `UnSetPluginRepo(name)` removes exactly the first
case-insensitive match and is a no-op when nothing matches. -/
theorem pluginRepo_case_insensitive (c : bxConfigRepository) (name : String)
    (r : models.PluginRepo) (pre post : List models.PluginRepo) :
    (((bxConfigRepository.init c).data.PluginRepos = pre ++ r :: post ∧
      (∀ x ∈ pre, goToLower x.Name ≠ goToLower name) ∧
      goToLower r.Name = goToLower name) →
      (bxConfigRepository.PluginRepo c name).1 = (r, true)) ∧
    ((∀ x ∈ (bxConfigRepository.init c).data.PluginRepos,
        goToLower x.Name ≠ goToLower name) →
      (bxConfigRepository.PluginRepo c name).1 = ({ Name := "", URL := "" }, false)) ∧
    (((bxConfigRepository.init c).data.PluginRepos = pre ++ r :: post ∧
      (∀ x ∈ pre, goToLower x.Name ≠ goToLower name) ∧
      goToLower r.Name = goToLower name) →
      (bxConfigRepository.UnSetPluginRepo c name).data.PluginRepos = pre ++ post) ∧
    ((∀ x ∈ (bxConfigRepository.init c).data.PluginRepos,
        goToLower x.Name ≠ goToLower name) →
      (bxConfigRepository.UnSetPluginRepo c name).data.PluginRepos =
        (bxConfigRepository.init c).data.PluginRepos) := by
  refine ⟨?_, ?_, ?_, ?_⟩
  · rintro ⟨hlist, hpre, hr⟩
    show bxConfigRepository.pluginRepoFind
      (bxConfigRepository.init c).data.PluginRepos name = (r, true)
    rw [hlist]
    exact bxConfigRepository.pluginRepoFind_found pre post r name hpre hr
  · intro h
    show bxConfigRepository.pluginRepoFind
      (bxConfigRepository.init c).data.PluginRepos name = ({ Name := "", URL := "" }, false)
    exact bxConfigRepository.pluginRepoFind_not_found _ _ h
  · rintro ⟨hlist, hpre, hr⟩
    rw [unSetPluginRepo_pluginRepos, hlist, findIdx_first_match pre post r name hpre hr]
    rw [if_pos]
    · exact eraseIdx_append_length pre post r
    · simp
  · intro h
    rw [unSetPluginRepo_pluginRepos, findIdx_no_match _ _ h, if_neg]
    simp

/-- C9 witness: `sampleRepo` registers only `{Name := "Foo"}`; looking up and
unsetting "FOO" finds and removes it, while "absent" finds nothing and
removes nothing. -/
theorem pluginRepo_case_insensitive_witness :
    ((bxConfigRepository.init sampleRepo).data.PluginRepos =
      [] ++ ({ Name := "Foo", URL := "https://foo.test" } : models.PluginRepo) :: [] ∧
     (∀ x ∈ ([] : List models.PluginRepo), goToLower x.Name ≠ goToLower "FOO") ∧
     goToLower (models.PluginRepo.Name { Name := "Foo", URL := "https://foo.test" }) =
       goToLower "FOO") ∧
    (bxConfigRepository.PluginRepo sampleRepo "FOO").1 =
      ({ Name := "Foo", URL := "https://foo.test" }, true) ∧
    (bxConfigRepository.UnSetPluginRepo sampleRepo "FOO").data.PluginRepos = [] ++ [] ∧
    (∀ x ∈ (bxConfigRepository.init sampleRepo).data.PluginRepos,
      goToLower x.Name ≠ goToLower "absent") ∧
    (bxConfigRepository.PluginRepo sampleRepo "absent").1 =
      ({ Name := "", URL := "" }, false) ∧
    (bxConfigRepository.UnSetPluginRepo sampleRepo "absent").data.PluginRepos =
      (bxConfigRepository.init sampleRepo).data.PluginRepos := by
  have h := pluginRepo_case_insensitive sampleRepo "FOO"
    { Name := "Foo", URL := "https://foo.test" } [] []
  have h2 := pluginRepo_case_insensitive sampleRepo "absent"
    { Name := "Foo", URL := "https://foo.test" } [] []
  refine ⟨⟨by rfl, by simp, by decide⟩, ?_, ?_, ?_, ?_, ?_⟩
  · exact h.1 ⟨by rfl, by simp, by decide⟩
  · exact h.2.2.1 ⟨by rfl, by simp, by decide⟩
  · decide
  · exact h2.2.1 (by decide)
  · exact h2.2.2.2 (by decide)

/-- C10: `SetPluginRepo` appends at the end without deduplicating by name,
so two entries whose names are case-insensitively equal coexist and both
satisfy the case-insensitive lookup predicate for the same key. -/
theorem setPluginRepo_appends (c : bxConfigRepository) (r1 r2 : models.PluginRepo)
    (hdup : goToLower r1.Name = goToLower r2.Name) :
    (bxConfigRepository.SetPluginRepo
        (bxConfigRepository.SetPluginRepo c r1) r2).data.PluginRepos =
      (bxConfigRepository.init c).data.PluginRepos ++ [r1, r2] ∧
    (goToLower r1.Name == goToLower r1.Name) = true ∧
    (goToLower r2.Name == goToLower r1.Name) = true := by
  refine ⟨?_, by simp, by simp [hdup]⟩
  rw [setPluginRepo_pluginRepos, setPluginRepo_init, setPluginRepo_pluginRepos]
  simp

/-- C10 witness: registering "foo" then "FOO" on `sampleRepo` leaves both
entries in the list. -/
theorem setPluginRepo_appends_witness :
    goToLower (models.PluginRepo.Name { Name := "foo", URL := "u1" }) =
      goToLower (models.PluginRepo.Name { Name := "FOO", URL := "u2" }) ∧
    ((bxConfigRepository.SetPluginRepo
        (bxConfigRepository.SetPluginRepo sampleRepo { Name := "foo", URL := "u1" })
        { Name := "FOO", URL := "u2" }).data.PluginRepos =
      (bxConfigRepository.init sampleRepo).data.PluginRepos ++
        [{ Name := "foo", URL := "u1" }, { Name := "FOO", URL := "u2" }] ∧
    (goToLower (models.PluginRepo.Name { Name := "foo", URL := "u1" }) ==
      goToLower (models.PluginRepo.Name { Name := "foo", URL := "u1" })) = true ∧
    (goToLower (models.PluginRepo.Name { Name := "FOO", URL := "u2" }) ==
      goToLower (models.PluginRepo.Name { Name := "foo", URL := "u1" })) = true) :=
  ⟨by decide,
   setPluginRepo_appends sampleRepo { Name := "foo", URL := "u1" }
     { Name := "FOO", URL := "u2" } (by decide)⟩

/-!  Lemmas for the at-most-once load property.  -/

theorem init_loadCount_fresh (c : bxConfigRepository) (h : c.initDone = false) :
    (bxConfigRepository.init c).loadCount = c.loadCount + 1 := by
  unfold bxConfigRepository.init
  simp only [h, Bool.false_eq_true, if_false]
  split <;> rfl

theorem init_handled_fresh_err (c : bxConfigRepository) (e : String)
    (h : c.initDone = false) (he : c.persistor.loadErr = some e) :
    e ∈ (bxConfigRepository.init c).handled := by
  unfold bxConfigRepository.init
  simp [h, he]

theorem init_handled_mono (c : bxConfigRepository) (x : String)
    (h : x ∈ c.handled) : x ∈ (bxConfigRepository.init c).handled := by
  unfold bxConfigRepository.init
  split
  · exact h
  · split <;> simp [h]

theorem write_handled_mono (c : bxConfigRepository) (f : BXConfigData → BXConfigData)
    (x : String) (h : x ∈ (bxConfigRepository.init c).handled) :
    x ∈ (bxConfigRepository.write c f).handled := by
  rw [write_handled]
  split
  · simp [h]
  · exact h

theorem writeRaw_handled_mono (c : bxConfigRepository) (f : BXConfigData → BXConfigData)
    (x : String) (h : x ∈ (bxConfigRepository.init c).handled) :
    x ∈ (bxConfigRepository.writeRaw c f).handled := by
  rw [writeRaw_handled]
  split
  · simp [h]
  · exact h

theorem applyOp_initDone (op : RepoOp) (c : bxConfigRepository) :
    (applyOp op c).initDone = true := by
  cases op <;>
    first
      | exact init_initDone c
      | exact write_initDone c _
      | exact writeRaw_initDone c _

theorem applyOp_loadCount (op : RepoOp) (c : bxConfigRepository) :
    (applyOp op c).loadCount = (bxConfigRepository.init c).loadCount := by
  cases op <;>
    first
      | rfl
      | exact write_loadCount c _
      | exact writeRaw_loadCount c _

theorem applyOp_handled_from_init (op : RepoOp) (c : bxConfigRepository) (x : String)
    (h : x ∈ (bxConfigRepository.init c).handled) : x ∈ (applyOp op c).handled := by
  cases op <;>
    first
      | exact h
      | exact write_handled_mono c _ x h
      | exact writeRaw_handled_mono c _ x h

theorem runOps_inv (ops : List RepoOp) (c : bxConfigRepository)
    (h1 : c.initDone = true) :
    (runOps ops c).initDone = true ∧ (runOps ops c).loadCount = c.loadCount ∧
    (∀ x ∈ c.handled, x ∈ (runOps ops c).handled) := by
  induction ops generalizing c with
  | nil => exact ⟨h1, rfl, fun x hx => hx⟩
  | cons op rest ih =>
      have ha := applyOp_initDone op c
      have hb : (applyOp op c).loadCount = c.loadCount := by
        rw [applyOp_loadCount, init_of_initDone c h1]
      have hrec := ih (applyOp op c) ha
      refine ⟨hrec.1, ?_, fun x hx => ?_⟩
      · show (runOps rest (applyOp op c)).loadCount = c.loadCount
        rw [hrec.2.1, hb]
      · show x ∈ (runOps rest (applyOp op c)).handled
        refine hrec.2.2 x (applyOp_handled_from_init op c x ?_)
        rw [init_of_initDone c h1]
        exact hx

/-- C4: over any sequence of repository operations on one fresh repository
instance, the persistor's `Load` runs at most once: the first operation
performs it (the count is exactly one for a non-empty sequence) and later
operations skip it, and a load failure is handed to the error handler and
never retried. -/
theorem load_at_most_once (p : Persistor) (ops : List RepoOp) (e : String) :
    (runOps ops (createBluemixConfigFromPersistor p)).loadCount ≤ 1 ∧
    (ops ≠ [] → (runOps ops (createBluemixConfigFromPersistor p)).loadCount = 1) ∧
    (ops ≠ [] → p.loadErr = some e →
      e ∈ (runOps ops (createBluemixConfigFromPersistor p)).handled) := by
  cases ops with
  | nil =>
      refine ⟨Nat.zero_le 1, fun h => absurd rfl h, fun h => absurd rfl h⟩
  | cons op rest =>
      have h1 := applyOp_initDone op (createBluemixConfigFromPersistor p)
      have hcnt : (applyOp op (createBluemixConfigFromPersistor p)).loadCount = 1 := by
        rw [applyOp_loadCount,
          init_loadCount_fresh (createBluemixConfigFromPersistor p) rfl]
        rfl
      have hrec := runOps_inv rest (applyOp op (createBluemixConfigFromPersistor p)) h1
      have hcount : (runOps (op :: rest) (createBluemixConfigFromPersistor p)).loadCount = 1 := by
        show (runOps rest (applyOp op (createBluemixConfigFromPersistor p))).loadCount = 1
        rw [hrec.2.1, hcnt]
      refine ⟨hcount.le, fun _ => hcount, fun _ he => ?_⟩
      show e ∈ (runOps rest (applyOp op (createBluemixConfigFromPersistor p))).handled
      refine hrec.2.2 e (applyOp_handled_from_init op _ e ?_)
      exact init_handled_fresh_err (createBluemixConfigFromPersistor p) e rfl he

/-- C4 witness: a getter followed by a setter on a repository whose load
fails with "corrupt" — `Load` ran exactly once and the error was handled. -/
theorem load_at_most_once_witness :
    ([RepoOp.getIAMToken, RepoOp.setLocale "fr"] ≠ ([] : List RepoOp)) ∧
    failLoadPersistor.loadErr = some "corrupt" ∧
    ((runOps [RepoOp.getIAMToken, RepoOp.setLocale "fr"]
        (createBluemixConfigFromPersistor failLoadPersistor)).loadCount ≤ 1 ∧
     (runOps [RepoOp.getIAMToken, RepoOp.setLocale "fr"]
        (createBluemixConfigFromPersistor failLoadPersistor)).loadCount = 1 ∧
     "corrupt" ∈ (runOps [RepoOp.getIAMToken, RepoOp.setLocale "fr"]
        (createBluemixConfigFromPersistor failLoadPersistor)).handled) := by
  have h := load_at_most_once failLoadPersistor
    [RepoOp.getIAMToken, RepoOp.setLocale "fr"] "corrupt"
  exact ⟨List.cons_ne_nil _ _, rfl,
    h.1, h.2.1 (List.cons_ne_nil _ _), h.2.2 (List.cons_ne_nil _ _) rfl⟩

/-!  Lemmas for the decode/encode round trip.  -/

theorem jsonLookup_fields (d : BXConfigData) (extra : List (String × JVal)) :
    jsonLookup (d.fields ++ extra) "ConsoleEndpoint" = some (.jstr d.ConsoleEndpoint) ∧
    jsonLookup (d.fields ++ extra) "Region" = some (.jstr d.Region) ∧
    jsonLookup (d.fields ++ extra) "RegionID" = some (.jstr d.RegionID) ∧
    jsonLookup (d.fields ++ extra) "RegionType" = some (.jstr d.RegionType) ∧
    jsonLookup (d.fields ++ extra) "IAMEndpoint" = some (.jstr d.IAMEndpoint) ∧
    jsonLookup (d.fields ++ extra) "IAMID" = some (.jstr d.IAMID) ∧
    jsonLookup (d.fields ++ extra) "IAMToken" = some (.jstr d.IAMToken) ∧
    jsonLookup (d.fields ++ extra) "IAMRefreshToken" = some (.jstr d.IAMRefreshToken) ∧
    jsonLookup (d.fields ++ extra) "Account" = some (encodeAccount d.Account) ∧
    jsonLookup (d.fields ++ extra) "ResourceGroup" = some (encodeResourceGroup d.ResourceGroup) ∧
    jsonLookup (d.fields ++ extra) "PluginRepos" = some (.jarr (d.PluginRepos.map encodePluginRepo)) ∧
    jsonLookup (d.fields ++ extra) "Locale" = some (.jstr d.Locale) ∧
    jsonLookup (d.fields ++ extra) "Trace" = some (.jstr d.Trace) ∧
    jsonLookup (d.fields ++ extra) "ColorEnabled" = some (.jstr d.ColorEnabled) ∧
    jsonLookup (d.fields ++ extra) "HTTPTimeout" = some (.jint d.HTTPTimeout) ∧
    jsonLookup (d.fields ++ extra) "CLIInfoEndpoint" = some (.jstr d.CLIInfoEndpoint) ∧
    jsonLookup (d.fields ++ extra) "CheckCLIVersionDisabled" = some (.jbool d.CheckCLIVersionDisabled) ∧
    jsonLookup (d.fields ++ extra) "UsageStatsDisabled" = some (.jbool d.UsageStatsDisabled) := by
  refine ⟨?_, ?_, ?_, ?_, ?_, ?_, ?_, ?_, ?_, ?_, ?_, ?_, ?_, ?_, ?_, ?_, ?_, ?_⟩ <;>
    simp [jsonLookup, BXConfigData.fields, List.find?]

theorem strFieldOk_jstr (s : String) : strFieldOk (some (.jstr s)) = true := rfl

theorem getStrField_jstr (s : String) : getStrField (some (.jstr s)) = s := rfl

theorem intFieldOk_jint (n : Int) : intFieldOk (some (.jint n)) = true := rfl

theorem getIntField_jint (n : Int) : getIntField (some (.jint n)) = n := rfl

theorem boolFieldOk_jbool (b : Bool) : boolFieldOk (some (.jbool b)) = true := rfl

theorem getBoolField_jbool (b : Bool) : getBoolField (some (.jbool b)) = b := rfl

theorem accountFieldOk_encode (a : models.Account) :
    accountFieldOk (some (encodeAccount a)) = true := rfl

theorem getAccountField_encode (a : models.Account) :
    getAccountField (some (encodeAccount a)) = a := rfl

theorem resourceGroupFieldOk_encode (g : models.ResourceGroup) :
    resourceGroupFieldOk (some (encodeResourceGroup g)) = true := rfl

theorem getResourceGroupField_encode (g : models.ResourceGroup) :
    getResourceGroupField (some (encodeResourceGroup g)) = g := rfl

theorem pluginRepo_roundtrip (p : models.PluginRepo) :
    pluginRepoOk (encodePluginRepo p) = true ∧
    getPluginRepo (encodePluginRepo p) = p := ⟨rfl, rfl⟩

theorem pluginRepos_roundtrip (l : List models.PluginRepo) :
    ((l.map encodePluginRepo).all pluginRepoOk) = true ∧
    (l.map encodePluginRepo).map getPluginRepo = l := by
  induction l with
  | nil => exact ⟨rfl, rfl⟩
  | cons p rest ih =>
      constructor
      · simp [List.all_cons, ih.1, (pluginRepo_roundtrip p).1]
      · simp [List.map_cons, ih.2, (pluginRepo_roundtrip p).2]

theorem pluginReposFieldOk_encode (l : List models.PluginRepo) :
    pluginReposFieldOk (some (.jarr (l.map encodePluginRepo))) = true := by
  simp [pluginReposFieldOk, (pluginRepos_roundtrip l).1]

theorem getPluginReposField_encode (l : List models.PluginRepo) :
    getPluginReposField (some (.jarr (l.map encodePluginRepo))) = l := by
  simp [getPluginReposField, (pluginRepos_roundtrip l).2]

theorem decode_fields (d : BXConfigData) (extra : List (String × JVal)) :
    BXConfigData.decode (.jobj (d.fields ++ extra)) =
      some { d with raw := d.fields ++ extra } := by
  obtain ⟨h1, h2, h3, h4, h5, h6, h7, h8, h9, h10, h11, h12, h13, h14, h15, h16, h17, h18⟩ :=
    jsonLookup_fields d extra
  simp only [BXConfigData.decode, decodeOk,
    h1, h2, h3, h4, h5, h6, h7, h8, h9, h10, h11, h12, h13, h14, h15, h16, h17, h18,
    strFieldOk_jstr, getStrField_jstr, intFieldOk_jint, getIntField_jint,
    boolFieldOk_jbool, getBoolField_jbool, accountFieldOk_encode, getAccountField_encode,
    resourceGroupFieldOk_encode, getResourceGroupField_encode,
    pluginReposFieldOk_encode, getPluginReposField_encode,
    Bool.and_self, Bool.and_true, Bool.true_and, if_true]

/-- C3: decoding the encoding of a typed document restores every typed field
(round-trip law), and any keys outside the typed schema that are present in
the encoded object survive decoding into the raw map verbatim — the raw map
receives the whole decoded object. -/
theorem decode_encode_roundtrip (d : BXConfigData) (extra : List (String × JVal))
    (_hext : ∀ p ∈ extra, ∀ n ∈ typedFieldNames, goToLower p.1 ≠ goToLower n) :
    BXConfigData.decode (BXConfigData.encode d) = some { d with raw := d.fields } ∧
    BXConfigData.decode (.jobj (d.fields ++ extra)) =
      some { d with raw := d.fields ++ extra } ∧
    ∀ p ∈ extra, p ∈ (d.fields ++ extra) := by
  refine ⟨?_, decode_fields d extra, fun p hp => List.mem_append_right _ hp⟩
  have h := decode_fields d []
  rw [List.append_nil] at h
  exact h

/-- C3 witness: round trip of `sampleDoc` with the unknown key
"NewFangledKey" added to the encoded object. -/
theorem decode_encode_roundtrip_witness :
    (∀ p ∈ [(("NewFangledKey" : String), JVal.jstr "keep-me")],
      ∀ n ∈ typedFieldNames, goToLower p.1 ≠ goToLower n) ∧
    (BXConfigData.decode (BXConfigData.encode sampleDoc) =
      some { sampleDoc with raw := sampleDoc.fields } ∧
    BXConfigData.decode
        (.jobj (sampleDoc.fields ++ [("NewFangledKey", JVal.jstr "keep-me")])) =
      some { sampleDoc with
              raw := sampleDoc.fields ++ [("NewFangledKey", JVal.jstr "keep-me")] } ∧
    ∀ p ∈ [(("NewFangledKey" : String), JVal.jstr "keep-me")],
      p ∈ sampleDoc.fields ++ [("NewFangledKey", JVal.jstr "keep-me")]) :=
  ⟨by decide, decode_encode_roundtrip sampleDoc _ (by decide)⟩
